import Mathlib

/-!
Verification of the blivedm-dump specification against a shallow embedding of
the repository code.

The embedding mirrors, function by function, the Python sources:
  - `src/blivedm/clients/web.py` (session-based bootstrap, `BLiveClient`)
  - `src/blivedm/clients/open_live.py` (signed-API bootstrap, `OpenLiveClient`)
  - `src/blivedm/utils.py` (`validate_cookies`)
  - `src/dump.py` (`CookieLoader`)
and, modelled from the spec where the repository module `ws_base` is not in
the source tree, the packet codec.

Network I/O is modelled by passing the outcome of each REST call as an
explicit oracle argument: `none` or a dedicated failure constructor stands
for any of the failure modes the Python code handles (non-200 status,
non-zero API code, connection error, timeout), and a `some`-wrapped record
stands for a successful response carrying the parsed JSON fields the code
reads.
-/

namespace Blivedm

/-! ### Session-based client (`src/blivedm/clients/web.py`) -/

/-- One entry of the danmaku server list, as in
`DEFAULT_DANMAKU_SERVER_LIST` and `data[host_list]` of web.py. -/
structure HostServer where
  host : String
  port : Nat
  wss_port : Nat
  ws_port : Nat
deriving Repr, DecidableEq

/-- `DEFAULT_DANMAKU_SERVER_LIST` of web.py lines 21-23: the single
well-known fallback server. -/
def DEFAULT_DANMAKU_SERVER_LIST : List HostServer :=
  [⟨"broadcastlv.chat.bilibili.com", 2243, 443, 2244⟩]

/-- The fields of `BLiveClient` that `init_room` and
`_on_network_coroutine_start` read and write (web.py). `Option` mirrors
Python fields initialized to `None`. -/
structure WebClientState where
  tmp_room_id : Nat
  room_id : Option Nat
  room_owner_uid : Option Nat
  host_server_list : Option (List HostServer)
  host_server_token : Option String
deriving Repr, DecidableEq

/-- A fresh `BLiveClient` right after `__init__` (web.py lines 36-60). -/
def WebClientState.fresh (tmp_room_id : Nat) : WebClientState :=
  { tmp_room_id := tmp_room_id
    room_id := none
    room_owner_uid := none
    host_server_list := none
    host_server_token := none }

/-- The JSON fields `_parse_room_init` reads from a successful
`ROOM_INIT_URL` response (web.py lines 197-201). -/
structure RoomInitData where
  room_id : Nat
  uid : Nat
deriving Repr, DecidableEq

/-- The JSON fields `_parse_danmaku_server_conf` reads from a successful
`DANMAKU_SERVER_CONF_URL` response (web.py lines 229-235). -/
structure DanmakuConf where
  host_list : List HostServer
  token : String
deriving Repr, DecidableEq

/-- `BLiveClient._parse_room_init` (web.py lines 197-201): store the
canonical room id and the owner uid; always returns True. -/
def WebClientState.parse_room_init (st : WebClientState) (data : RoomInitData) :
    Bool × WebClientState :=
  (true, { st with room_id := some data.room_id, room_owner_uid := some data.uid })

/-- `BLiveClient._init_room_id_and_owner` (web.py lines 172-195). The oracle
`res` is `none` for every failure mode the code turns into `return False`
(non-200 status, non-zero code, connection error, timeout) and
`some data` for a successful response. -/
def WebClientState.init_room_id_and_owner (st : WebClientState)
    (res : Option RoomInitData) : Bool × WebClientState :=
  match res with
  | none => (false, st)
  | some data => st.parse_room_init data

/-- `BLiveClient._parse_danmaku_server_conf` (web.py lines 229-235): store
the host list and token, then fail if the host list is empty. The fields are
assigned before the emptiness check, as in the source. -/
def WebClientState.parse_danmaku_server_conf (st : WebClientState)
    (data : DanmakuConf) : Bool × WebClientState :=
  let st := { st with
    host_server_list := some data.host_list
    host_server_token := some data.token }
  if st.host_server_list.getD [] = [] then (false, st) else (true, st)

/-- `BLiveClient._init_host_server` (web.py lines 203-227), with the REST
outcome as an oracle as in `init_room_id_and_owner`. -/
def WebClientState.init_host_server (st : WebClientState)
    (res : Option DanmakuConf) : Bool × WebClientState :=
  match res with
  | none => (false, st)
  | some data => st.parse_danmaku_server_conf data

/-- `BLiveClient.init_room` (web.py lines 83-102): run both sub-steps; on
failure of a sub-step substitute the conservative default and clear the
success flag `res`. Returns `(res, final state)`. -/
def WebClientState.init_room (st : WebClientState)
    (roomRes : Option RoomInitData) (confRes : Option DanmakuConf) :
    Bool × WebClientState :=
  let res := true
  let (ok₁, st) := st.init_room_id_and_owner roomRes
  let (res, st) :=
    if ok₁ then (res, st)
    else (false, { st with
      room_id := some st.tmp_room_id
      room_owner_uid := some 0 })
  let (ok₂, st) := st.init_host_server confRes
  let (res, st) :=
    if ok₂ then (res, st)
    else (false, { st with
      host_server_list := some DEFAULT_DANMAKU_SERVER_LIST
      host_server_token := none })
  (res, st)

/-- Result of one run of `_on_network_coroutine_start`: whether `init_room`
was invoked, whether `InitError` was raised, and the field state afterwards
(the Python object keeps its mutated fields even when the exception
propagates). -/
structure StartOutcome (σ : Type) where
  invokedInit : Bool
  raisedInitError : Bool
  state : σ
deriving Repr, DecidableEq

/-- `BLiveClient._on_network_coroutine_start` (web.py lines 237-244):
bootstrap is invoked exactly when `_host_server_token is None`, and
`InitError` is raised exactly when the invoked `init_room` returns False. -/
def WebClientState.on_network_coroutine_start (st : WebClientState)
    (roomRes : Option RoomInitData) (confRes : Option DanmakuConf) :
    StartOutcome WebClientState :=
  if st.host_server_token = none then
    let (res, st) := st.init_room roomRes confRes
    if res then ⟨true, false, st⟩ else ⟨true, true, st⟩
  else ⟨false, false, st⟩

/-- `BLiveClient._get_ws_url` (web.py lines 246-252): pick
`host_server_list[retry_count % len(host_server_list)]` and format the
websocket URL. `none` models the `ZeroDivisionError` Python would raise on
an empty list (`% 0`). -/
def getWsUrlWeb (host_server_list : List HostServer) (retry_count : Nat) :
    Option String :=
  if h : host_server_list.length = 0 then none
  else
    let host_server := host_server_list.get
      ⟨retry_count % host_server_list.length,
       Nat.mod_lt _ (Nat.pos_of_ne_zero h)⟩
    some ("wss://" ++ host_server.host ++ ":" ++ toString host_server.wss_port ++ "/sub")

/-! ### Signed-API client (`src/blivedm/clients/open_live.py`) -/

/-- The JSON fields `_parse_start_game` reads from a successful `START_URL`
response (open_live.py lines 182-190). -/
structure StartGameData where
  game_id : String
  auth_body : String
  wss_link : List String
  room_id : Nat
  uid : Nat
deriving Repr, DecidableEq

/-- The fields of `OpenLiveClient` that the bootstrap, teardown and
keep-alive paths read and write (open_live.py). `game_heartbeat_timer`
models whether `_game_heartbeat_timer_handle` is set. -/
structure OpenLiveClientState where
  room_id : Option Nat
  room_owner_uid : Option Nat
  host_server_url_list : Option (List String)
  auth_body : Option String
  game_id : Option String
  game_heartbeat_timer : Bool
deriving Repr, DecidableEq

/-- A fresh `OpenLiveClient` right after `__init__` (open_live.py lines
41-78); note `_host_server_url_list` starts as the empty list, not None. -/
def OpenLiveClientState.fresh : OpenLiveClientState :=
  { room_id := none
    room_owner_uid := none
    host_server_url_list := some []
    auth_body := none
    game_id := none
    game_heartbeat_timer := false }

/-- `OpenLiveClient._parse_start_game` (open_live.py lines 182-190): store
game id, auth body, server url list, room id and owner uid; always returns
True — in particular no emptiness check on `wss_link`. -/
def OpenLiveClientState.parse_start_game (st : OpenLiveClientState)
    (data : StartGameData) : Bool × OpenLiveClientState :=
  (true, { st with
    game_id := some data.game_id
    auth_body := some data.auth_body
    host_server_url_list := some data.wss_link
    room_id := some data.room_id
    room_owner_uid := some data.uid })

/-- `OpenLiveClient._start_game` (open_live.py lines 161-180), with the REST
outcome as an oracle (`none` for any failure mode turned into False). -/
def OpenLiveClientState.start_game (st : OpenLiveClientState)
    (res : Option StartGameData) : Bool × OpenLiveClientState :=
  match res with
  | none => (false, st)
  | some data => st.parse_start_game data

/-- `OpenLiveClient.init_room` (open_live.py lines 146-159): run
`_start_game`; on success arm the game heartbeat timer when `game_id` is not
the empty string and the timer is not yet armed. -/
def OpenLiveClientState.init_room (st : OpenLiveClientState)
    (res : Option StartGameData) : Bool × OpenLiveClientState :=
  let (ok, st) := st.start_game res
  if !ok then (false, st)
  else
    let st :=
      if st.game_id ≠ some "" ∧ st.game_heartbeat_timer = false then
        { st with game_heartbeat_timer := true }
      else st
    (true, st)

/-- `OpenLiveClient._on_network_coroutine_start` (open_live.py lines
258-265): bootstrap is invoked exactly when `_auth_body is None`, and
`InitError` is raised exactly when the invoked `init_room` returns False. -/
def OpenLiveClientState.on_network_coroutine_start (st : OpenLiveClientState)
    (res : Option StartGameData) : StartOutcome OpenLiveClientState :=
  if st.auth_body = none then
    let (ok, st) := st.init_room res
    if ok then ⟨true, false, st⟩ else ⟨true, true, st⟩
  else ⟨false, false, st⟩

/-- `OpenLiveClient._get_ws_url` (open_live.py lines 267-271):
`host_server_url_list[retry_count % len(host_server_url_list)]`. `none`
models the `ZeroDivisionError` Python would raise on an empty list. -/
def getWsUrlOpenLive (host_server_url_list : List String) (retry_count : Nat) :
    Option String :=
  if h : host_server_url_list.length = 0 then none
  else some (host_server_url_list.get
    ⟨retry_count % host_server_url_list.length,
     Nat.mod_lt _ (Nat.pos_of_ne_zero h)⟩)

/-! ### Signed request building (`OpenLiveClient._request_open_live`) -/

/-- `START_URL` of open_live.py line 21. -/
def START_URL : String := "https://live-open.biliapi.com/v2/app/start"

/-- `HEARTBEAT_URL` of open_live.py line 22. -/
def HEARTBEAT_URL : String := "https://live-open.biliapi.com/v2/app/heartbeat"

/-- `END_URL` of open_live.py line 23. -/
def END_URL : String := "https://live-open.biliapi.com/v2/app/end"

/-- The HTTP POST built by `_request_open_live`: target URL, header list in
insertion order, and the body bytes passed as `data=`. -/
structure OpenLiveRequest where
  url : String
  headers : List (String × String)
  data : String
deriving Repr, DecidableEq

/-- `OpenLiveClient._request_open_live` (open_live.py lines 122-144).
The serialized JSON body `bodyBytes` (the result of
`json.dumps(body).encode`), the nonce (`random.randint`), the timestamp
(`datetime.now`), and the hash primitives `md5Hex` (hex digest of MD5) and
`hmacSha256Hex` (hex digest of HMAC-SHA256, taking key then message) are
parameters: they come from the standard library and the environment, not
from this repository. The function builds the six `x-bili-*` headers in
declaration order, newline-joins them as `key:value` into the string to
sign, signs it with the access secret, and appends the `Authorization`,
`Content-Type` and `Accept` headers. -/
def request_open_live (md5Hex : String → String)
    (hmacSha256Hex : String → String → String)
    (access_key access_secret : String) (nonce timestamp : String)
    (url : String) (bodyBytes : String) : OpenLiveRequest :=
  let headers : List (String × String) :=
    [("x-bili-accesskeyid", access_key),
     ("x-bili-content-md5", md5Hex bodyBytes),
     ("x-bili-signature-method", "HMAC-SHA256"),
     ("x-bili-signature-nonce", nonce),
     ("x-bili-signature-version", "1.0"),
     ("x-bili-timestamp", timestamp)]
  let str_to_sign :=
    String.intercalate "\n" (headers.map (fun kv => kv.1 ++ ":" ++ kv.2))
  let signature := hmacSha256Hex access_secret str_to_sign
  let headers := headers ++
    [("Authorization", signature),
     ("Content-Type", "application/json"),
     ("Accept", "application/json")]
  ⟨url, headers, bodyBytes⟩

/-! ### Teardown and game keep-alive (`OpenLiveClient`) -/

/-- Outcome of one signed REST call, as the Python code discriminates it:
a caught exception (`aiohttp.ClientConnectionError` or
`asyncio.TimeoutError`), or a response with an HTTP status and a JSON
`code` field. -/
inductive RestOutcome where
  | connectionError
  | timeoutError
  | response (status : Nat) (code : Int)
deriving Repr, DecidableEq

/-- Result of `_end_game` / `_send_game_heartbeat`: the Python return value
and the URL of the REST request issued, if any. -/
structure RestCallResult where
  result : Bool
  requestedUrl : Option String
deriving Repr, DecidableEq

/-- `OpenLiveClient._end_game` (open_live.py lines 192-216): a no-op
returning True when `game_id in (None, '')`; otherwise POST `END_URL` and
return False on any failure (caught exception, non-200 status, non-zero
code), True on success. No exception escapes. -/
def OpenLiveClientState.end_game (st : OpenLiveClientState)
    (outcome : RestOutcome) : RestCallResult :=
  if st.game_id = none ∨ st.game_id = some "" then ⟨true, none⟩
  else
    match outcome with
    | .connectionError => ⟨false, some END_URL⟩
    | .timeoutError => ⟨false, some END_URL⟩
    | .response status code =>
      if status ≠ 200 then ⟨false, some END_URL⟩
      else if code ≠ 0 then ⟨false, some END_URL⟩
      else ⟨true, some END_URL⟩

/-- `OpenLiveClient._send_game_heartbeat` (open_live.py lines 231-256): logs
and returns False without any request when `game_id in (None, '')`;
otherwise POST `HEARTBEAT_URL` and return False on any failure, True on
success. No exception escapes. -/
def OpenLiveClientState.send_game_heartbeat (st : OpenLiveClientState)
    (outcome : RestOutcome) : RestCallResult :=
  if st.game_id = none ∨ st.game_id = some "" then ⟨false, none⟩
  else
    match outcome with
    | .connectionError => ⟨false, some HEARTBEAT_URL⟩
    | .timeoutError => ⟨false, some HEARTBEAT_URL⟩
    | .response status code =>
      if status ≠ 200 then ⟨false, some HEARTBEAT_URL⟩
      else if code ≠ 0 then ⟨false, some HEARTBEAT_URL⟩
      else ⟨true, some HEARTBEAT_URL⟩

/-- State of a client after `close()`: the field state, whether the base
class shutdown ran to completion, and the teardown call record. -/
structure CloseOutcome where
  state : OpenLiveClientState
  baseClosed : Bool
  endGameCall : RestCallResult
deriving Repr, DecidableEq

/-- `OpenLiveClient.close` (open_live.py lines 108-120): cancel the game
heartbeat timer, await `_end_game` discarding its result, then run the base
class `close`. The base `close` lives in the `ws_base` module, which is not
in the source tree; modelled from the spec (section 4.2): it releases the
socket and session resources unconditionally, recorded here as
`baseClosed := true`. -/
def OpenLiveClientState.close (st : OpenLiveClientState)
    (outcome : RestOutcome) : CloseOutcome :=
  let st := { st with game_heartbeat_timer := false }
  let call := st.end_game outcome
  { state := st, baseClosed := true, endGameCall := call }

/-! ### Cookie loading and validation (`src/dump.py`, `src/blivedm/utils.py`) -/

/-- A cookie dictionary, as returned by `load_cookies` in dump.py. -/
abbrev Cookies := List (String × String)

/-- `validate_cookies` (utils.py lines 20-26): returns `True` when the nav
endpoint answers with HTTP 200 and a body containing the code-0 marker;
otherwise falls off the end of the function, returning `None`. The inputs
are the observed HTTP status and whether the body contains the marker
string. -/
def validate_cookies (status : Nat) (bodyHasCodeZero : Bool) : Option Bool :=
  if status = 200 then
    if bodyHasCodeZero then some true else none
  else none

/-- Python truthiness of the `validate_cookies` result as used in
`if (await validate_cookies(cookies)):` — `None` is falsy. -/
def isTruthy : Option Bool → Bool
  | some b => b
  | none => false

/-- One managed `BLiveClient` as `CookieLoader._runner` sees it: its
`cookies` attribute, plus fields the reload loop never touches — whether
the client task is running and how many times its connection was
(re)started. -/
structure ManagedClient where
  cookies : Cookies
  running : Bool
  connectionEpoch : Nat
deriving Repr, DecidableEq

/-- `CookieLoader` state: the stored `self.cookies` and the managed client
dictionary `self.rooms`. -/
structure LoaderState where
  cookies : Cookies
  rooms : List ManagedClient
deriving Repr, DecidableEq

/-- What one iteration of `CookieLoader._runner` observes: `raised` models
any exception from `load_cookies` or `validate_cookies` (caught by the
`except Exception` arm); `completed` carries the freshly loaded cookie
dictionary and the HTTP observation fed to `validate_cookies`. -/
inductive ReloadEnv where
  | raised
  | completed (newCookies : Cookies) (status : Nat) (bodyHasCodeZero : Bool)
deriving Repr, DecidableEq

/-- One iteration of `CookieLoader._runner` (dump.py lines 148-162): on a
truthy validation, store the new cookies and assign them to every managed
client; on falsy validation or any exception, leave everything unchanged. -/
def runnerStep (st : LoaderState) (env : ReloadEnv) : LoaderState :=
  match env with
  | .raised => st
  | .completed newCookies status bodyHasCodeZero =>
    if isTruthy (validate_cookies status bodyHasCodeZero) then
      { cookies := newCookies
        rooms := st.rooms.map (fun c => { c with cookies := newCookies }) }
    else st

/-! ### Packet codec -/

/-- Big-endian encoding of `n` into `width` bytes (most significant first),
as `struct.pack` with `>I`, `>H` fields does. -/
def toBE : Nat → Nat → List Nat
  | 0, _ => []
  | width + 1, n => toBE width (n / 256) ++ [n % 256]

/-- Big-endian decoding of a byte list, as `struct.unpack` does. -/
def fromBE (bytes : List Nat) : Nat :=
  bytes.foldl (fun acc b => acc * 256 + b) 0

/-- One logical wire packet as the spec data model describes it (spec
section 3): header fields plus payload. -/
structure Packet where
  total_length : Nat
  header_length : Nat
  protocol_version : Nat
  operation : Nat
  sequence_id : Nat
  payload : List Nat
deriving Repr, DecidableEq

/-- Modelled from the spec: `encode` of the Packet Codec (spec sections 4.1
and 6); the repository module `ws_base` holding this code is not in the
source tree. Writes a 16-byte big-endian header — `total_length =
16 + len(payload)` as u32, `header_length = 16` as u16, `protocol_version =
Plain (0)` as u16, `operation` as u32, `sequence_id` as u32 — followed by
the raw payload. -/
def encode (operation sequence_id : Nat) (payload : List Nat) : List Nat :=
  toBE 4 (16 + payload.length) ++ toBE 2 16 ++ toBE 2 0 ++
    toBE 4 operation ++ toBE 4 sequence_id ++ payload

/-- Modelled from the spec: `decode` of the Packet Codec (spec section 4.1);
the repository module `ws_base` holding this code is not in the source
tree. Repeatedly read the fixed 16-byte header, validate `header_length ==
16` and `total_length >= 16` and that the declared length fits the buffer,
slice the payload, advance by `total_length`. A malformed or truncated tail
ends decoding, discarding the tail but keeping the packets already
decoded. -/
def decode (buffer : List Nat) : List Packet :=
  if h : buffer.length < 16 then []
  else
    let total_length := fromBE (buffer.take 4)
    let header_length := fromBE ((buffer.drop 4).take 2)
    let protocol_version := fromBE ((buffer.drop 6).take 2)
    let operation := fromBE ((buffer.drop 8).take 4)
    let sequence_id := fromBE ((buffer.drop 12).take 4)
    if hv : header_length = 16 ∧ 16 ≤ total_length ∧ total_length ≤ buffer.length
    then
      let payload := (buffer.drop 16).take (total_length - 16)
      ⟨total_length, header_length, protocol_version, operation, sequence_id,
        payload⟩ :: decode (buffer.drop total_length)
    else []
termination_by buffer.length
decreasing_by
  simp only [List.length_drop]
  omega

theorem toBE_length (width n : Nat) : (toBE width n).length = width := by
  induction width generalizing n with
  | zero => rfl
  | succ w ih => simp [toBE, ih]

theorem fromBE_append (l₁ l₂ : List Nat) :
    fromBE (l₁ ++ l₂) = fromBE l₁ * 256 ^ l₂.length + fromBE l₂ := by
  induction l₂ using List.reverseRecOn with
  | nil => simp [fromBE]
  | append_singleton l₂ b ih =>
    simp only [fromBE, List.foldl_append, List.foldl_cons, List.foldl_nil] at *
    rw [ih]
    simp only [List.length_append, List.length_singleton, pow_succ, pow_add,
      pow_one]
    ring

theorem fromBE_toBE (width n : Nat) (h : n < 256 ^ width) :
    fromBE (toBE width n) = n := by
  induction width generalizing n with
  | zero =>
    interval_cases n
    rfl
  | succ w ih =>
    rw [toBE, fromBE_append]
    have hdiv : n / 256 < 256 ^ w := by
      rw [Nat.div_lt_iff_lt_mul (by norm_num)]
      calc n < 256 ^ (w + 1) := h
        _ = 256 ^ w * 256 := by ring
    rw [ih _ hdiv]
    simp only [List.length_singleton, pow_one, fromBE, List.foldl_cons,
      List.foldl_nil, Nat.zero_mul, Nat.zero_add]
    omega

theorem decode_encode (operation sequence_id : Nat) (payload : List Nat)
    (hlen : 16 + payload.length < 2 ^ 32) (hop : operation < 2 ^ 32)
    (hseq : sequence_id < 2 ^ 32) :
    decode (encode operation sequence_id payload) =
      [⟨16 + payload.length, 16, 0, operation, sequence_id, payload⟩] := by
  have h256 : (2 : Nat) ^ 32 = 256 ^ 4 := by norm_num
  have hdr₄ : ∀ n : Nat, (toBE 4 n).length = 4 := fun n => toBE_length 4 n
  have hdr₂ : ∀ n : Nat, (toBE 2 n).length = 2 := fun n => toBE_length 2 n
  set buf := encode operation sequence_id payload with hbuf
  have hbuflen : buf.length = 16 + payload.length := by
    simp only [hbuf, encode, List.length_append, toBE_length]
  have htake4 : buf.take 4 = toBE 4 (16 + payload.length) := by
    rw [hbuf, encode]
    rw [List.append_assoc, List.append_assoc, List.append_assoc,
      List.append_assoc]
    exact List.take_left' (hdr₄ _)
  have hdrop4 : buf.drop 4 =
      toBE 2 16 ++ (toBE 2 0 ++ (toBE 4 operation ++ (toBE 4 sequence_id ++ payload))) := by
    rw [hbuf, encode]
    rw [List.append_assoc, List.append_assoc, List.append_assoc,
      List.append_assoc]
    exact List.drop_left' (hdr₄ _)
  have htake2 : (buf.drop 4).take 2 = toBE 2 16 := by
    rw [hdrop4]; exact List.take_left' (hdr₂ _)
  have hdrop6 : buf.drop 6 =
      toBE 2 0 ++ (toBE 4 operation ++ (toBE 4 sequence_id ++ payload)) := by
    have : buf.drop 6 = (buf.drop 4).drop 2 := by
      rw [List.drop_drop]
    rw [this, hdrop4]
    exact List.drop_left' (hdr₂ _)
  have htake6 : (buf.drop 6).take 2 = toBE 2 0 := by
    rw [hdrop6]; exact List.take_left' (hdr₂ _)
  have hdrop8 : buf.drop 8 = toBE 4 operation ++ (toBE 4 sequence_id ++ payload) := by
    have : buf.drop 8 = (buf.drop 6).drop 2 := by rw [List.drop_drop]
    rw [this, hdrop6]
    exact List.drop_left' (hdr₂ _)
  have htake8 : (buf.drop 8).take 4 = toBE 4 operation := by
    rw [hdrop8]; exact List.take_left' (hdr₄ _)
  have hdrop12 : buf.drop 12 = toBE 4 sequence_id ++ payload := by
    have : buf.drop 12 = (buf.drop 8).drop 4 := by rw [List.drop_drop]
    rw [this, hdrop8]
    exact List.drop_left' (hdr₄ _)
  have htake12 : (buf.drop 12).take 4 = toBE 4 sequence_id := by
    rw [hdrop12]; exact List.take_left' (hdr₄ _)
  have hdrop16 : buf.drop 16 = payload := by
    have : buf.drop 16 = (buf.drop 12).drop 4 := by rw [List.drop_drop]
    rw [this, hdrop12]
    exact List.drop_left' (hdr₄ _)
  have hT : fromBE (buf.take 4) = 16 + payload.length := by
    rw [htake4]; exact fromBE_toBE 4 _ (h256 ▸ hlen)
  have hH : fromBE ((buf.drop 4).take 2) = 16 := by
    rw [htake2]; exact fromBE_toBE 2 16 (by norm_num)
  have hV : fromBE ((buf.drop 6).take 2) = 0 := by
    rw [htake6]; exact fromBE_toBE 2 0 (by norm_num)
  have hO : fromBE ((buf.drop 8).take 4) = operation := by
    rw [htake8]; exact fromBE_toBE 4 _ (h256 ▸ hop)
  have hS : fromBE ((buf.drop 12).take 4) = sequence_id := by
    rw [htake12]; exact fromBE_toBE 4 _ (h256 ▸ hseq)
  rw [decode]
  rw [dif_neg (by omega : ¬ buf.length < 16)]
  simp only [hT, hH, hV, hO, hS]
  rw [dif_pos ⟨trivial, by omega, by omega⟩]
  have hpay : (buf.drop 16).take (16 + payload.length - 16) = payload := by
    rw [hdrop16]
    simp
  have hrest : buf.drop (16 + payload.length) = [] := by
    apply List.drop_eq_nil_of_le
    omega
  rw [hpay, hrest, decode]
  simp

/-! ### Claim theorems -/

/-- C7: for every operation, sequence id, and payload bytes,
`decode (encode op seq payload)` yields exactly one Packet whose operation,
sequence id, and payload equal the originals, with `total_length = 16 +
len(payload)`, `header_length = 16`, and `protocol_version = Plain (0)` in
the encoded 16-byte big-endian header. The three bounds are the u32 field
ranges of the header. -/
theorem c7_decode_encode_roundtrip (operation sequence_id : Nat)
    (payload : List Nat) (hlen : 16 + payload.length < 2 ^ 32)
    (hop : operation < 2 ^ 32) (hseq : sequence_id < 2 ^ 32) :
    decode (encode operation sequence_id payload) =
      [⟨16 + payload.length, 16, 0, operation, sequence_id, payload⟩] :=
  decode_encode operation sequence_id payload hlen hop hseq

/-- Witness for C7 at operation 7 (Auth), sequence id 1, payload
`[104, 105]`. -/
theorem c7_decode_encode_roundtrip_witness :
    (16 + [104, 105].length < 2 ^ 32 ∧ 7 < 2 ^ 32 ∧ 1 < 2 ^ 32) ∧
    decode (encode 7 1 [104, 105]) = [⟨18, 16, 0, 7, 1, [104, 105]⟩] :=
  ⟨⟨by norm_num, by norm_num, by norm_num⟩,
    c7_decode_encode_roundtrip 7 1 [104, 105] (by norm_num) (by norm_num)
      (by norm_num)⟩

/-- C2: for every non-empty candidate list and every retry count, URL
selection in both clients returns the candidate at index `retry_count mod
N`; over retry counts `0..N-1` the selected index takes each of the `N`
values exactly once (the map of `r mod N` over `range N` is `range N`
itself), independent of the failure cause (the retry count is the only
input). -/
theorem c2_get_ws_url_round_robin (lw : List HostServer) (lo : List String)
    (retry_count : Nat) (hw : lw ≠ []) (ho : lo ≠ []) :
    getWsUrlOpenLive lo retry_count = lo.get? (retry_count % lo.length)
    ∧ (∃ hs : HostServer, lw.get? (retry_count % lw.length) = some hs ∧
        getWsUrlWeb lw retry_count =
          some ("wss://" ++ hs.host ++ ":" ++ toString hs.wss_port ++ "/sub"))
    ∧ (List.range lo.length).map (fun r => r % lo.length) = List.range lo.length
    ∧ (List.range lw.length).map (fun r => r % lw.length) = List.range lw.length := by
  have hlw : lw.length ≠ 0 := fun h => hw (List.length_eq_zero.mp h)
  have hlo : lo.length ≠ 0 := fun h => ho (List.length_eq_zero.mp h)
  have hmodw : retry_count % lw.length < lw.length :=
    Nat.mod_lt _ (Nat.pos_of_ne_zero hlw)
  have hmodo : retry_count % lo.length < lo.length :=
    Nat.mod_lt _ (Nat.pos_of_ne_zero hlo)
  refine ⟨?_, ⟨lw.get ⟨retry_count % lw.length, hmodw⟩, ?_, ?_⟩, ?_, ?_⟩
  · rw [getWsUrlOpenLive, dif_neg hlo, List.get?_eq_get hmodo]
  · exact List.get?_eq_get hmodw
  · rw [getWsUrlWeb, dif_neg hlw]
  · refine List.ext_get (by simp) ?_
    intro i h₁ h₂
    simp only [List.get_eq_getElem, List.getElem_map, List.getElem_range]
    exact Nat.mod_eq_of_lt (by simpa using h₂)
  · refine List.ext_get (by simp) ?_
    intro i h₁ h₂
    simp only [List.get_eq_getElem, List.getElem_map, List.getElem_range]
    exact Nat.mod_eq_of_lt (by simpa using h₂)

/-- Witness for C2 on a two-candidate list at retry count 3: the second
candidate is selected (3 mod 2 = 1) in both variants. -/
theorem c2_get_ws_url_round_robin_witness :
    ([(⟨"a.example", 1, 2, 3⟩ : HostServer), ⟨"b.example", 1, 443, 3⟩] ≠
        ([] : List HostServer)
      ∧ ["wss://u1", "wss://u2"] ≠ ([] : List String))
    ∧ getWsUrlOpenLive ["wss://u1", "wss://u2"] 3 = some "wss://u2"
    ∧ getWsUrlWeb [⟨"a.example", 1, 2, 3⟩, ⟨"b.example", 1, 443, 3⟩] 3 =
        some "wss://b.example:443/sub" := by
  have h := c2_get_ws_url_round_robin
    [⟨"a.example", 1, 2, 3⟩, ⟨"b.example", 1, 443, 3⟩]
    ["wss://u1", "wss://u2"] 3 (by simp) (by simp)
  refine ⟨⟨by simp, by simp⟩, ?_, ?_⟩
  · rw [h.1]
    rfl
  · obtain ⟨hs, hget, hurl⟩ := h.2.1
    have : hs = ⟨"b.example", 1, 443, 3⟩ := by
      simpa using hget.symm
    rw [hurl, this]
    rfl

/-- C1 counterexample: a fresh client whose room-id/owner resolution fails
while the danmaku-server fetch succeeds (a usable sub-step path). The
degraded defaults are substituted (`room_id := tmp_room_id`, owner uid 0)
and the fetched server list is stored — yet `_on_network_coroutine_start`
still raises `InitError`, because `init_room` returned False on the partial
failure. The claim says InitError is raised only on total resolution
failure. -/
theorem c1_counterexample :
    ((WebClientState.fresh 123).on_network_coroutine_start none
        (some ⟨[⟨"s1.example.com", 2243, 443, 2244⟩], "tok"⟩)).invokedInit = true
    ∧ ((WebClientState.fresh 123).on_network_coroutine_start none
        (some ⟨[⟨"s1.example.com", 2243, 443, 2244⟩], "tok"⟩)).state.host_server_list =
        some [⟨"s1.example.com", 2243, 443, 2244⟩]
    ∧ ((WebClientState.fresh 123).on_network_coroutine_start none
        (some ⟨[⟨"s1.example.com", 2243, 443, 2244⟩], "tok"⟩)).state.room_id = some 123
    ∧ ((WebClientState.fresh 123).on_network_coroutine_start none
        (some ⟨[⟨"s1.example.com", 2243, 443, 2244⟩], "tok"⟩)).state.room_owner_uid = some 0
    ∧ ((WebClientState.fresh 123).on_network_coroutine_start none
        (some ⟨[⟨"s1.example.com", 2243, 443, 2244⟩], "tok"⟩)).raisedInitError = true := by
  decide

/-- C1 (amended): when bootstrap runs (token not yet cached), each failing
sub-step substitutes its conservative default into the client fields
(`room_id := tmp_room_id` and owner uid 0; the single fallback server and a
cleared token) — but the connect attempt raises `InitError` whenever any
sub-step failed (`init_room` returns False then), not only on total
resolution failure. -/
theorem c1_degraded_defaults_initerror_on_any_failure (st : WebClientState)
    (roomRes : Option RoomInitData) (confRes : Option DanmakuConf)
    (h : st.host_server_token = none) :
    (st.on_network_coroutine_start roomRes confRes).invokedInit = true
    ∧ ((st.on_network_coroutine_start roomRes confRes).raisedInitError = false ↔
        roomRes ≠ none ∧ ∃ d, confRes = some d ∧ d.host_list ≠ [])
    ∧ (roomRes = none →
        (st.on_network_coroutine_start roomRes confRes).state.room_id =
            some st.tmp_room_id
        ∧ (st.on_network_coroutine_start roomRes confRes).state.room_owner_uid =
            some 0)
    ∧ ((confRes = none ∨ ∃ d, confRes = some d ∧ d.host_list = []) →
        (st.on_network_coroutine_start roomRes confRes).state.host_server_list =
            some DEFAULT_DANMAKU_SERVER_LIST
        ∧ (st.on_network_coroutine_start roomRes confRes).state.host_server_token =
            none) := by
  rcases confRes with _ | cd
  · rcases roomRes with _ | rd <;>
      simp [WebClientState.on_network_coroutine_start, h,
        WebClientState.init_room, WebClientState.init_room_id_and_owner,
        WebClientState.init_host_server, WebClientState.parse_room_init,
        WebClientState.parse_danmaku_server_conf]
  · by_cases hc : cd.host_list = [] <;> rcases roomRes with _ | rd <;>
      simp [WebClientState.on_network_coroutine_start, h,
        WebClientState.init_room, WebClientState.init_room_id_and_owner,
        WebClientState.init_host_server, WebClientState.parse_room_init,
        WebClientState.parse_danmaku_server_conf, hc]

/-- Witness for C1 (amended) on a fresh client with both sub-steps
failing: the fallback server list and cleared token are substituted. -/
theorem c1_degraded_defaults_initerror_on_any_failure_witness :
    (WebClientState.fresh 42).host_server_token = none
    ∧ ((WebClientState.fresh 42).on_network_coroutine_start none
        none).state.host_server_list = some DEFAULT_DANMAKU_SERVER_LIST
    ∧ ((WebClientState.fresh 42).on_network_coroutine_start none
        none).raisedInitError = true :=
  ⟨rfl,
    ((c1_degraded_defaults_initerror_on_any_failure (WebClientState.fresh 42)
       none none rfl).2.2.2 (Or.inl rfl)).1,
    by
      have h := (c1_degraded_defaults_initerror_on_any_failure
        (WebClientState.fresh 42) none none rfl).2.1
      simp at h
      simpa using h⟩

/-- If the web bootstrap `init_room` returns True, the danmaku-server
sub-step parsed a successful response, so the cached token field is set. -/
theorem init_room_web_success_sets_token (st : WebClientState)
    (ri : Option RoomInitData) (dc : Option DanmakuConf)
    (h : (st.init_room ri dc).1 = true) :
    ∃ t, ((st.init_room ri dc).2).host_server_token = some t := by
  rcases ri with _ | rd <;> rcases dc with _ | cd
  · simp [WebClientState.init_room, WebClientState.init_room_id_and_owner,
      WebClientState.init_host_server] at h
  · by_cases hc : cd.host_list = [] <;>
      simp [WebClientState.init_room, WebClientState.init_room_id_and_owner,
        WebClientState.init_host_server, WebClientState.parse_danmaku_server_conf,
        hc] at h
  · simp [WebClientState.init_room, WebClientState.init_room_id_and_owner,
      WebClientState.init_host_server, WebClientState.parse_room_init] at h
  · by_cases hc : cd.host_list = [] <;>
      simp [WebClientState.init_room, WebClientState.init_room_id_and_owner,
        WebClientState.init_host_server, WebClientState.parse_room_init,
        WebClientState.parse_danmaku_server_conf, hc] at h ⊢

/-- If the signed-API bootstrap `init_room` returns True, `_start_game`
parsed a successful response, so the cached auth-body field is set. -/
theorem init_room_open_live_success_sets_auth_body (st : OpenLiveClientState)
    (res : Option StartGameData) (h : (st.init_room res).1 = true) :
    ∃ a, ((st.init_room res).2).auth_body = some a := by
  rcases res with _ | d
  · simp [OpenLiveClientState.init_room, OpenLiveClientState.start_game] at h
  · simp [OpenLiveClientState.init_room, OpenLiveClientState.start_game,
      OpenLiveClientState.parse_start_game]
    split <;> exact ⟨d.auth_body, rfl⟩

/-- C3: in both variants, `_on_network_coroutine_start` invokes the
bootstrap exactly when the cached field (`_host_server_token` /
`_auth_body`) is still None; and once a run has invoked it successfully (no
`InitError`), the cached field is set, so every subsequent connect attempt
neither re-invokes the bootstrap nor changes the client fields. -/
theorem c3_bootstrap_cached_after_success (stw : WebClientState)
    (ri ri₂ : Option RoomInitData) (dc dc₂ : Option DanmakuConf)
    (sto : OpenLiveClientState) (sg sg₂ : Option StartGameData) :
    ((stw.on_network_coroutine_start ri dc).invokedInit = true ↔
        stw.host_server_token = none)
    ∧ ((sto.on_network_coroutine_start sg).invokedInit = true ↔
        sto.auth_body = none)
    ∧ ((stw.on_network_coroutine_start ri dc).invokedInit = true →
        (stw.on_network_coroutine_start ri dc).raisedInitError = false →
        ((stw.on_network_coroutine_start ri dc).state.on_network_coroutine_start
            ri₂ dc₂).invokedInit = false
        ∧ ((stw.on_network_coroutine_start ri dc).state.on_network_coroutine_start
            ri₂ dc₂).state = (stw.on_network_coroutine_start ri dc).state)
    ∧ ((sto.on_network_coroutine_start sg).invokedInit = true →
        (sto.on_network_coroutine_start sg).raisedInitError = false →
        ((sto.on_network_coroutine_start sg).state.on_network_coroutine_start
            sg₂).invokedInit = false
        ∧ ((sto.on_network_coroutine_start sg).state.on_network_coroutine_start
            sg₂).state = (sto.on_network_coroutine_start sg).state) := by
  refine ⟨?_, ?_, ?_, ?_⟩
  · by_cases hw : stw.host_server_token = none <;>
      simp [WebClientState.on_network_coroutine_start, hw]
    split <;> rfl
  · by_cases ho : sto.auth_body = none <;>
      simp [OpenLiveClientState.on_network_coroutine_start, ho]
    split <;> rfl
  · intro hinv hraise
    by_cases hw : stw.host_server_token = none
    · cases hres : (stw.init_room ri dc).1
      · simp [WebClientState.on_network_coroutine_start, hw, hres] at hraise
      · obtain ⟨t, ht⟩ := init_room_web_success_sets_token stw ri dc hres
        simp [WebClientState.on_network_coroutine_start, hw, hres, ht]
    · simp [WebClientState.on_network_coroutine_start, hw] at hinv
  · intro hinv hraise
    by_cases ho : sto.auth_body = none
    · cases hres : (sto.init_room sg).1
      · simp [OpenLiveClientState.on_network_coroutine_start, ho, hres] at hraise
      · obtain ⟨a, ha⟩ := init_room_open_live_success_sets_auth_body sto sg hres
        simp [OpenLiveClientState.on_network_coroutine_start, ho, hres, ha]
    · simp [OpenLiveClientState.on_network_coroutine_start, ho] at hinv

/-- Witness for C3: a fresh signed-API client bootstraps successfully once;
the second connect attempt does not re-invoke the bootstrap and keeps the
state unchanged. -/
theorem c3_bootstrap_cached_after_success_witness :
    ((OpenLiveClientState.fresh.on_network_coroutine_start
        (some ⟨"g1", "authbody", ["wss://u1"], 5, 6⟩)).state.on_network_coroutine_start
        none).invokedInit = false := by
  have h := (c3_bootstrap_cached_after_success (WebClientState.fresh 1) none none
    none none OpenLiveClientState.fresh
    (some ⟨"g1", "authbody", ["wss://u1"], 5, 6⟩) none).2.2.2
  exact (h (by decide) (by decide)).1

/-- URL selection on a non-empty web host list always yields a URL. -/
theorem getWsUrlWeb_ne_none (l : List HostServer) (r : Nat) (h : l ≠ []) :
    getWsUrlWeb l r ≠ none := by
  simp [getWsUrlWeb, List.length_eq_zero, h]

/-- URL selection on a non-empty open-live URL list always yields a URL. -/
theorem getWsUrlOpenLive_ne_none (l : List String) (r : Nat) (h : l ≠ []) :
    getWsUrlOpenLive l r ≠ none := by
  simp [getWsUrlOpenLive, List.length_eq_zero, h]

/-- C4 counterexample: a signed-API bootstrap whose `START_URL` response
carries an empty `wss_link` list. `_parse_start_game` performs no emptiness
check, so the bootstrap completes without `InitError`, the stored host
candidate list is empty, and the URL selection is undefined (`% 0`, a
`ZeroDivisionError` in Python) — refuting the claim for the open-live
variant. -/
theorem c4_counterexample :
    (OpenLiveClientState.fresh.on_network_coroutine_start
        (some ⟨"g1", "authbody", [], 5, 6⟩)).raisedInitError = false
    ∧ (OpenLiveClientState.fresh.on_network_coroutine_start
        (some ⟨"g1", "authbody", [], 5, 6⟩)).state.host_server_url_list = some []
    ∧ getWsUrlOpenLive [] 0 = none := by
  decide

/-- C4 (amended): in the web variant, every run of `init_room` leaves a
non-empty host list (a successful fetch is rejected when `host_list` is
empty, and the degraded path substitutes the non-empty fallback list), so
the mod-based selection is always well-defined there. In the signed-API
variant the selection is well-defined only when the `wss_link` of the
successful response is non-empty: the code performs no emptiness check. -/
theorem c4_nonempty_candidates (stw : WebClientState) (ri : Option RoomInitData)
    (dc : Option DanmakuConf) (sto : OpenLiveClientState) (sg : StartGameData)
    (retry_count : Nat) (hsg : sg.wss_link ≠ []) :
    (∃ l, ((stw.init_room ri dc).2).host_server_list = some l ∧ l ≠ [] ∧
        getWsUrlWeb l retry_count ≠ none)
    ∧ (sto.init_room (some sg)).1 = true
    ∧ (sto.init_room (some sg)).2.host_server_url_list = some sg.wss_link
    ∧ getWsUrlOpenLive sg.wss_link retry_count ≠ none := by
  refine ⟨?_, ?_, ?_, getWsUrlOpenLive_ne_none _ _ hsg⟩
  · have hdef : DEFAULT_DANMAKU_SERVER_LIST ≠ [] := by
      simp [DEFAULT_DANMAKU_SERVER_LIST]
    rcases dc with _ | cd
    · refine ⟨DEFAULT_DANMAKU_SERVER_LIST, ?_, hdef,
        getWsUrlWeb_ne_none _ _ hdef⟩
      rcases ri with _ | rd <;>
        simp [WebClientState.init_room, WebClientState.init_room_id_and_owner,
          WebClientState.init_host_server, WebClientState.parse_room_init]
    · by_cases hc : cd.host_list = []
      · refine ⟨DEFAULT_DANMAKU_SERVER_LIST, ?_, hdef,
          getWsUrlWeb_ne_none _ _ hdef⟩
        rcases ri with _ | rd <;>
          simp [WebClientState.init_room, WebClientState.init_room_id_and_owner,
            WebClientState.init_host_server, WebClientState.parse_room_init,
            WebClientState.parse_danmaku_server_conf, hc]
      · refine ⟨cd.host_list, ?_, hc, getWsUrlWeb_ne_none _ _ hc⟩
        rcases ri with _ | rd <;>
          simp [WebClientState.init_room, WebClientState.init_room_id_and_owner,
            WebClientState.init_host_server, WebClientState.parse_room_init,
            WebClientState.parse_danmaku_server_conf, hc]
  · simp [OpenLiveClientState.init_room, OpenLiveClientState.start_game,
      OpenLiveClientState.parse_start_game]
  · simp only [OpenLiveClientState.init_room, OpenLiveClientState.start_game,
      OpenLiveClientState.parse_start_game, Bool.not_true, Bool.false_eq_true,
      if_false]
    split <;> rfl

/-- Witness for C4 (amended) with a one-entry `wss_link`. -/
theorem c4_nonempty_candidates_witness :
    (["wss://u1"] : List String) ≠ []
    ∧ (OpenLiveClientState.fresh.init_room
        (some ⟨"g1", "authbody", ["wss://u1"], 5, 6⟩)).2.host_server_url_list =
        some ["wss://u1"] := by
  have h := c4_nonempty_candidates (WebClientState.fresh 1) none none
    OpenLiveClientState.fresh ⟨"g1", "authbody", ["wss://u1"], 5, 6⟩ 0
    (by simp)
  exact ⟨by simp, h.2.2.1⟩

/-- C5: for every request body, `_request_open_live` sends the body
unchanged, sets `x-bili-content-md5` to the hex MD5 of that body, fixes the
signature method and version headers, and puts in `Authorization` the hex
HMAC-SHA256, keyed by the access secret, of the six `x-bili-*` headers
newline-joined as `key:value` in declaration order. -/
theorem c5_signed_request_headers (md5Hex : String → String)
    (hmacSha256Hex : String → String → String)
    (access_key access_secret nonce timestamp url bodyBytes : String) :
    (request_open_live md5Hex hmacSha256Hex access_key access_secret nonce
        timestamp url bodyBytes).data = bodyBytes
    ∧ (request_open_live md5Hex hmacSha256Hex access_key access_secret nonce
        timestamp url bodyBytes).headers.lookup "x-bili-content-md5" =
        some (md5Hex bodyBytes)
    ∧ (request_open_live md5Hex hmacSha256Hex access_key access_secret nonce
        timestamp url bodyBytes).headers.lookup "x-bili-signature-method" =
        some "HMAC-SHA256"
    ∧ (request_open_live md5Hex hmacSha256Hex access_key access_secret nonce
        timestamp url bodyBytes).headers.lookup "x-bili-signature-version" =
        some "1.0"
    ∧ (request_open_live md5Hex hmacSha256Hex access_key access_secret nonce
        timestamp url bodyBytes).headers.lookup "Authorization" =
        some (hmacSha256Hex access_secret
          ("x-bili-accesskeyid:" ++ access_key ++
           "\nx-bili-content-md5:" ++ md5Hex bodyBytes ++
           "\nx-bili-signature-method:HMAC-SHA256" ++
           "\nx-bili-signature-nonce:" ++ nonce ++
           "\nx-bili-signature-version:1.0" ++
           "\nx-bili-timestamp:" ++ timestamp)) := by
  refine ⟨rfl, ?_, ?_, ?_, ?_⟩ <;>
    simp [request_open_live, List.lookup, String.intercalate,
      String.intercalate.go, String.append_assoc]
  congr 1

/-- C6: signed-API teardown and keep-alive REST calls are best-effort: with
an open game session, any failing outcome (caught exception, non-200
status, non-zero code) makes `_end_game` and `_send_game_heartbeat` return
False rather than raise, and `close()` still completes the client shutdown
(base close runs, game heartbeat timer cancelled) regardless. -/
theorem c6_teardown_keepalive_best_effort (st : OpenLiveClientState)
    (outcome : RestOutcome) (g : String) (hg : st.game_id = some g)
    (hne : g ≠ "") (hfail : outcome ≠ RestOutcome.response 200 0) :
    (st.end_game outcome).result = false
    ∧ (st.send_game_heartbeat outcome).result = false
    ∧ (st.close outcome).endGameCall.result = false
    ∧ (st.close outcome).baseClosed = true
    ∧ (st.close outcome).state.game_heartbeat_timer = false := by
  rcases outcome with _ | _ | ⟨s, c⟩ <;>
    simp [OpenLiveClientState.end_game, OpenLiveClientState.send_game_heartbeat,
      OpenLiveClientState.close, hg, hne]
  by_cases hs : s = 200
  · by_cases hc : c = 0
    · exact absurd (by rw [hs, hc]) hfail
    · simp [hs, hc]
  · simp [hs]

/-- Witness for C6: open session `"gg"`, timeout on the REST call. -/
theorem c6_teardown_keepalive_best_effort_witness :
    (({ room_id := some 1, room_owner_uid := some 2,
        host_server_url_list := some ["wss://u1"], auth_body := some "a",
        game_id := some "gg", game_heartbeat_timer := true } :
        OpenLiveClientState).close RestOutcome.timeoutError).baseClosed = true :=
  (c6_teardown_keepalive_best_effort
    { room_id := some 1, room_owner_uid := some 2,
      host_server_url_list := some ["wss://u1"], auth_body := some "a",
      game_id := some "gg", game_heartbeat_timer := true }
    RestOutcome.timeoutError "gg" rfl (by decide) (by decide)).2.2.2.1

/-- C10: with no open game session (`game_id` None or empty), `_end_game`
returns True without issuing the END request, `_send_game_heartbeat`
returns False without issuing the heartbeat request, and `close()` issues
no session-ending request while still completing shutdown. -/
theorem c10_no_session_noop (st : OpenLiveClientState) (outcome : RestOutcome)
    (h : st.game_id = none ∨ st.game_id = some "") :
    (st.end_game outcome).result = true
    ∧ (st.end_game outcome).requestedUrl = none
    ∧ (st.send_game_heartbeat outcome).result = false
    ∧ (st.send_game_heartbeat outcome).requestedUrl = none
    ∧ (st.close outcome).endGameCall.requestedUrl = none
    ∧ (st.close outcome).baseClosed = true := by
  rcases h with h | h <;>
    simp [OpenLiveClientState.end_game, OpenLiveClientState.send_game_heartbeat,
      OpenLiveClientState.close, h]

/-- Witness for C10: a fresh client (no game session ever opened). -/
theorem c10_no_session_noop_witness :
    (OpenLiveClientState.fresh.game_id = none ∨
        OpenLiveClientState.fresh.game_id = some "")
    ∧ (OpenLiveClientState.fresh.close RestOutcome.connectionError).endGameCall.requestedUrl
        = none :=
  ⟨Or.inl rfl,
    (c10_no_session_noop OpenLiveClientState.fresh RestOutcome.connectionError
      (Or.inl rfl)).2.2.2.2.1⟩

/-- C8: each reload iteration either leaves the loader state fully
unchanged, or replaces the stored cookies as a whole with the freshly
loaded dictionary and assigns that same dictionary to every managed client;
in every case the connection state of the managed clients (running flag,
connection epoch) is untouched — no in-flight connection is restarted by
the replacement. -/
theorem c8_cookie_store_whole_value_swap (st : LoaderState) (env : ReloadEnv) :
    (runnerStep st env = st
      ∨ ∃ c, (runnerStep st env).cookies = c
          ∧ ∀ cl ∈ (runnerStep st env).rooms, cl.cookies = c)
    ∧ (runnerStep st env).rooms.map (fun cl => (cl.running, cl.connectionEpoch))
        = st.rooms.map (fun cl => (cl.running, cl.connectionEpoch)) := by
  rcases env with _ | ⟨c, status, body⟩
  · exact ⟨Or.inl rfl, rfl⟩
  · by_cases hv : isTruthy (validate_cookies status body) = true
    · refine ⟨Or.inr ⟨c, ?_, ?_⟩, ?_⟩
      · simp [runnerStep, hv]
      · intro cl hcl
        simp only [runnerStep, hv, if_true] at hcl
        obtain ⟨cl₀, _, rfl⟩ := List.mem_map.mp hcl
        rfl
      · simp [runnerStep, hv, List.map_map]
    · simp only [Bool.not_eq_true] at hv
      exact ⟨Or.inl (by simp [runnerStep, hv]), by simp [runnerStep, hv]⟩

/-- Witness for C8: a valid reload pushes the new cookies to the managed
client while leaving its running flag and connection epoch untouched. -/
theorem c8_cookie_store_whole_value_swap_witness :
    (runnerStep ⟨[("SESSDATA", "old")], [⟨[("SESSDATA", "old")], true, 4⟩]⟩
        (ReloadEnv.completed [("SESSDATA", "new")] 200 true)).rooms.map
        (fun cl => (cl.running, cl.connectionEpoch)) = [(true, 4)] := by
  have h := (c8_cookie_store_whole_value_swap
    ⟨[("SESSDATA", "old")], [⟨[("SESSDATA", "old")], true, 4⟩]⟩
    (ReloadEnv.completed [("SESSDATA", "new")] 200 true)).2
  rw [h]
  rfl

/-- C9: the reloader never installs unvalidated cookies — an exception
during reload, or a falsy `validate_cookies` result, leaves the stored
cookies and all clients unchanged; a truthy validation result occurs only
for an HTTP 200 response whose body carries the code-0 marker, and then the
loaded dictionary is what gets stored. -/
theorem c9_no_unvalidated_cookie_install (st : LoaderState)
    (newCookies : Cookies) (status : Nat) (bodyHasCodeZero : Bool) :
    runnerStep st ReloadEnv.raised = st
    ∧ (isTruthy (validate_cookies status bodyHasCodeZero) = false →
        runnerStep st (ReloadEnv.completed newCookies status bodyHasCodeZero) = st)
    ∧ (isTruthy (validate_cookies status bodyHasCodeZero) = true →
        (runnerStep st (ReloadEnv.completed newCookies status
            bodyHasCodeZero)).cookies = newCookies
        ∧ status = 200 ∧ bodyHasCodeZero = true) := by
  refine ⟨rfl, ?_, ?_⟩
  · intro hv
    simp [runnerStep, hv]
  · intro hv
    refine ⟨by simp [runnerStep, hv], ?_⟩
    by_cases hs : status = 200
    · rcases bodyHasCodeZero with _ | _
      · simp [validate_cookies, isTruthy, hs] at hv
      · exact ⟨hs, rfl⟩
    · simp [validate_cookies, isTruthy, hs] at hv

/-- Witness for C9: a 500-status validation outcome installs nothing. -/
theorem c9_no_unvalidated_cookie_install_witness :
    isTruthy (validate_cookies 500 true) = false
    ∧ runnerStep ⟨[("SESSDATA", "old")], [⟨[("SESSDATA", "old")], true, 4⟩]⟩
        (ReloadEnv.completed [("SESSDATA", "new")] 500 true) =
      ⟨[("SESSDATA", "old")], [⟨[("SESSDATA", "old")], true, 4⟩]⟩ :=
  ⟨rfl,
    (c9_no_unvalidated_cookie_install
      ⟨[("SESSDATA", "old")], [⟨[("SESSDATA", "old")], true, 4⟩]⟩
      [("SESSDATA", "new")] 500 true).2.1 rfl⟩

end Blivedm
